import Mathlib

/-!
Verification of the cades-traveltime-compare repository.

Shallow embedding of the three source files:
  * src/datafiles.py                       (catalog indexer)
  * src/demo_sjoin_portal_inrix_meta.py    (direction normalizer, geometry ingestor)
  * src/demo_create_joined_timeseries.py   (temporal merge engine)

Conventions used throughout:
  * Python exceptions are modelled by the `PyErr` type; a Python function that
    can raise is embedded as an `Except PyErr`-valued function.
  * Raw cell values coming from pandas frames are modelled by `RawVal`
    (`null` = Python `None`, `nan` = a float NaN missing value, `str` = a string).
  * Timestamps that have already been parsed to a zoned instant are modelled as
    `Int` microseconds since the epoch (pandas timestamps have microsecond
    resolution in the data handled here).
  * The filesystem seen by `datafiles.py` is modelled by `FS`, a finite map from
    directory path to the list of names of the plain files it contains.
-/

/-- Python exception classes that the embedded code can raise. -/
inductive PyErr
  | keyError
  | valueError
  | typeError
  | attributeError
  | fileNotFoundError
deriving DecidableEq, Repr

deriving instance DecidableEq for Except

/-! ## String utilities (Python `in`, `str.upper`, regex fragments) -/

/-- Embeds Python `str.upper()` (identical to it on the ASCII vocabulary the
source feeds it). -/
def pyUpper (s : String) : String :=
  String.mk (s.data.map Char.toUpper)

/-- Does `pre` occur at the head of `l`? (helper for substring containment). -/
def listStartsWith : List Char → List Char → Bool
  | [], _ => true
  | _ :: _, [] => false
  | a :: as, b :: bs => a == b && listStartsWith as bs

/-- Does `needle` occur contiguously anywhere inside `hay`?
Embeds Python's `needle in hay` on strings. -/
def listOccursIn (needle : List Char) : List Char → Bool
  | [] => needle.isEmpty
  | c :: rest => listStartsWith needle (c :: rest) || listOccursIn needle rest

/-- Python `needle in hay` for strings. -/
def strContains (hay needle : String) : Bool :=
  listOccursIn needle.data hay.data

/-- A raw pandas cell value: `None`, a NaN missing value, or a string. -/
inductive RawVal
  | null
  | nan
  | str (s : String)
deriving DecidableEq, Repr

/-! ## Direction Normalizer — src/demo_sjoin_portal_inrix_meta.py lines 14-47 -/

/-- Embeds Python `dict.get` on a table whose values may themselves be `None`:
the result is `none` both when the key is absent and when the stored value is
`None` (the two cases are indistinguishable to the caller, which is the crux of
claim C4). -/
def dictGet (m : List (String × Option String)) (k : String) : Option String :=
  (List.lookup k m).join

/-- The `direction_map` table of `standardize_direction`
(src/demo_sjoin_portal_inrix_meta.py lines 18-31). -/
def direction_map : List (String × Option String) :=
  [("NORTHBOUND", some "NORTH"),
   ("SOUTHBOUND", some "SOUTH"),
   ("WESTBOUND", some "WEST"),
   ("EASTBOUND", some "EAST"),
   ("NORTH", some "NORTH"),
   ("SOUTH", some "SOUTH"),
   ("WEST", some "WEST"),
   ("EAST", some "EAST"),
   ("NORT", some "NORTH"),
   ("CONST", none)]

/-- The `bound_map` table of `standardize_direction`
(src/demo_sjoin_portal_inrix_meta.py lines 34-41). -/
def bound_map : List (String × Option String) :=
  [("NB", some "NORTH"),
   ("SB", some "SOUTH"),
   ("WB", some "WEST"),
   ("EB", some "EAST"),
   ("JB", none),
   ("ZB", none)]

/-- Embeds `standardize_direction(direction, bound)`
(src/demo_sjoin_portal_inrix_meta.py lines 14-47).

Source behaviour mirrored exactly:
  * `direction.upper()` raises `AttributeError` when `direction` is `None` or a
    non-string (NaN) value;
  * the primary lookup is `direction_map.get(direction.upper())`, which yields
    `None` both on a miss and on the explicit `"CONST" : None` entry;
  * the fallback runs when the primary result `is None` and `bound is not None`
    (a NaN bound passes that guard and then `bound.upper()` raises);
  * the result is `None` (= spec UNKNOWN) when neither table produces a value. -/
def standardize_direction (direction : RawVal) (bound : RawVal) :
    Except PyErr (Option String) :=
  match direction with
  | RawVal.str d =>
    match dictGet direction_map (pyUpper d) with
    | some v => Except.ok (some v)
    | none =>
      match bound with
      | RawVal.null => Except.ok none
      | RawVal.nan => Except.error PyErr.attributeError
      | RawVal.str b => Except.ok (dictGet bound_map (pyUpper b))
  | _ => Except.error PyErr.attributeError

/-- The value universe of the spec's Direction enumeration, with the source's
`None` standing for UNKNOWN. -/
def isStdDirection (v : Option String) : Bool :=
  v == none || v == some "NORTH" || v == some "SOUTH" ||
    v == some "WEST" || v == some "EAST"

/-! ## Timestamp normalization — src/demo_create_joined_timeseries.py lines 9-29 -/

/-- Does the string end with `[-+]` followed by exactly two digits?  This is
precisely when the regex `([-+]\d{2})$` of `normalize_timezone` matches. -/
def endsWithBareOffset (cs : List Char) : Bool :=
  match cs.reverse with
  | d2 :: d1 :: c :: _ => (c == '-' || c == '+') && d1.isDigit && d2.isDigit
  | _ => false

/-- Embeds `normalize_timezone` (src/demo_create_joined_timeseries.py lines 9-10):
`re.sub(r"([-+]\d{2})$", r"\1:00", timestamp)` appends `":00"` exactly when the
string ends in a sign followed by two digits. -/
def normalize_timezone (ts : String) : String :=
  if endsWithBareOffset ts.data then ts ++ ":00" else ts

/-- Does the string end with the 6 characters `[-+]\d\d:\d\d`?  This is
precisely when `re.search(r"([-+]\d{2}:\d{2})$", timestamp)` matches, and the
match is then the last 6 characters. -/
def endsWithFullOffset (cs : List Char) : Bool :=
  match cs.reverse with
  | m2 :: m1 :: colon :: h2 :: h1 :: sgn :: _ =>
    (sgn == '-' || sgn == '+') && h1.isDigit && h2.isDigit &&
      colon == ':' && m1.isDigit && m2.isDigit
  | _ => false

/-- Embeds `add_default_microseconds`
(src/demo_create_joined_timeseries.py lines 14-20): when the string has no `'.'`
and ends with a full `±HH:MM` offset, `".000000"` is spliced in immediately
before the offset (the offset is the last 6 characters). -/
def add_default_microseconds (ts : String) : String :=
  if ts.data.contains '.' then ts
  else if endsWithFullOffset ts.data then
    String.mk (ts.data.take (ts.data.length - 6) ++ ".000000".data ++
      ts.data.drop (ts.data.length - 6))
  else ts

/-- Embeds `normalize_timestamp` (src/demo_create_joined_timeseries.py
lines 24-29): `pd.isna` is true for `None` and NaN, which normalize to `None`;
a string is passed through both rewriting steps. -/
def normalize_timestamp : RawVal → Option String
  | RawVal.null => none
  | RawVal.nan => none
  | RawVal.str s => some (add_default_microseconds (normalize_timezone s))

/-! ## Geometry ingestor — src/demo_sjoin_portal_inrix_meta.py lines 50-76 -/

/-- Python `not wkb_hex.strip()`: true exactly when every character is
whitespace (in particular for the empty string). -/
def stripIsEmpty (s : String) : Bool :=
  s.data.all (fun c => c == ' ' || c == '\t' || c == '\n' || c == '\r')

/-- Value of one hexadecimal digit. -/
def hexVal (c : Char) : Nat :=
  if c.isDigit then c.toNat - '0'.toNat
  else if 'a' ≤ c && c ≤ 'f' then c.toNat - 'a'.toNat + 10
  else c.toNat - 'A'.toNat + 10

/-- Is `c` a hexadecimal digit? -/
def isHexDigit (c : Char) : Bool :=
  c.isDigit || ('a' ≤ c && c ≤ 'f') || ('A' ≤ c && c ≤ 'F')

/-- Digit pairs to bytes (assumes an even-length list of hex digits). -/
def hexPairs : List Char → List Nat
  | a :: b :: rest => (hexVal a * 16 + hexVal b) :: hexPairs rest
  | _ => []

/-- Embeds Python `bytes.fromhex`: spaces between bytes are skipped; any other
non-hex character, or an odd number of digits, raises `ValueError`. -/
def bytesFromHex (s : String) : Except PyErr (List Nat) :=
  let cs := s.data.filter (fun c => c ≠ ' ')
  if cs.all isHexDigit && cs.length % 2 == 0 then Except.ok (hexPairs cs)
  else Except.error PyErr.valueError

/-- A decoded geometry value (coordinates kept as raw 64-bit payloads; their
numeric interpretation plays no role in any claim). -/
inductive Geom
  | point (x y : Nat)
deriving DecidableEq, Repr

/-- Read a 4-byte unsigned integer in the given byte order. -/
def readU32 (littleEndian : Bool) : List Nat → Option (Nat × List Nat)
  | b0 :: b1 :: b2 :: b3 :: rest =>
    some ((if littleEndian then b0 + 256 * b1 + 65536 * b2 + 16777216 * b3
           else b3 + 256 * b2 + 65536 * b1 + 16777216 * b0), rest)
  | _ => none

/-- Fold 8 bytes into one Nat payload, failing on short input. -/
def readU64 : List Nat → Option (Nat × List Nat)
  | b0 :: b1 :: b2 :: b3 :: b4 :: b5 :: b6 :: b7 :: rest =>
    some (b0 + 256 * (b1 + 256 * (b2 + 256 * (b3 + 256 * (b4 + 256 *
      (b5 + 256 * (b6 + 256 * b7)))))), rest)
  | _ => none

/-- Modelled from the spec: the binary well-known-binary reader the source
calls (`shapely.wkb.loads`, src/demo_sjoin_portal_inrix_meta.py line 71) is not
part of src/.  Spec §4.3 describes it as parsing the binary geometry format,
"supporting the extended variant that embeds a spatial-reference-system
identifier in the type flag's high bit", with malformed payloads producing a
decode error that the caller catches.  We model a reader of (E)WKB point
payloads: byte order flag, 4-byte type whose `0x20000000` bit announces a
4-byte SRID, then two 8-byte coordinates; anything malformed fails with
`ValueError`. -/
def wkb_loads (bs : List Nat) : Except PyErr Geom :=
  match bs with
  | [] => Except.error PyErr.valueError
  | b :: rest =>
    if b == 0 || b == 1 then
      let le := b == 1
      match readU32 le rest with
      | none => Except.error PyErr.valueError
      | some (typ, rest1) =>
        let hasSrid := (typ / 0x20000000) % 2 == 1
        let baseTyp := typ % 0x20000000
        let afterSrid := if hasSrid then
            match readU32 le rest1 with
            | none => none
            | some (_, r) => some r
          else some rest1
        match afterSrid with
        | none => Except.error PyErr.valueError
        | some rest2 =>
          if baseTyp == 1 then
            match readU64 rest2 with
            | none => Except.error PyErr.valueError
            | some (x, rest3) =>
              match readU64 rest3 with
              | some (y, []) => Except.ok (Geom.point x y)
              | _ => Except.error PyErr.valueError
          else Except.error PyErr.valueError
    else Except.error PyErr.valueError

/-- Embeds `wkb_to_geom` (src/demo_sjoin_portal_inrix_meta.py lines 67-76).
The whole body runs under `try ... except (ValueError, TypeError)`; the second
component of the result is the error printed by the `except` arm (the
"observability collaborator" of the spec), `none` when nothing was caught.
`pd.isna` is true for `None`/NaN, so those inputs return `None` before any
decoding; empty or whitespace-only strings fail the `wkb_hex.strip()` truth
test and also return `None`. -/
def wkb_to_geom (v : RawVal) : Option Geom × Option PyErr :=
  match v with
  | RawVal.null => (none, none)
  | RawVal.nan => (none, none)
  | RawVal.str s =>
    if stripIsEmpty s then (none, none)
    else
      match bytesFromHex s with
      | Except.error e => (none, some e)
      | Except.ok bs =>
        match wkb_loads bs with
        | Except.ok g => (some g, none)
        | Except.error e => (none, some e)

/-! ## Catalog indexer — src/datafiles.py -/

/-- The filesystem visible to `datafiles.py`: a finite map from existing
directory path to the names of the plain files it contains (every entry is a
regular file, matching the `file.is_file()` guards of the source). -/
structure FS where
  dirs : List (String × List String)
deriving DecidableEq, Repr

/-- Embeds `Path.iterdir()`: listing a directory that does not exist raises
`FileNotFoundError`. -/
def FS.iterdir (fs : FS) (p : String) : Except PyErr (List String) :=
  match List.lookup p fs.dirs with
  | some files => Except.ok files
  | none => Except.error PyErr.fileNotFoundError

/-- Embeds `Path.exists()` within the modelled filesystem. -/
def FS.dirExists (fs : FS) (p : String) : Bool :=
  (List.lookup p fs.dirs).isSome

/-- Embeds `self.years = [str(year) for year in range(*years)]`
(src/datafiles.py line 83): `range(a, b)` is inclusive-exclusive. -/
def yearsOf (a b : Nat) : List String :=
  (List.range (b - a)).map (fun i => toString (a + i))

/-- Does the file name have Python `Path.suffix == ".csv"`, i.e. does it end in
`".csv"` with the dot not the first character?  For a name ending in `".csv"`
the last dot sits at position `length - 4`, so the condition is `length > 4`. -/
def isCsvName (f : String) : Bool :=
  listStartsWith ".csv".data.reverse f.data.reverse && f.data.length > 4

/-- One year's entry of `inrix_data_files`: the `"data"` and `"meta"` keys of
the per-year dictionary, `none` when the key was never assigned. -/
structure InrixYearFiles where
  dataFile : Option String
  metaFile : Option String
deriving DecidableEq, Repr

/-- Embeds the classification body of `_setup_inrix_data_files`
(src/datafiles.py lines 102-108): a `.csv` file whose name contains
`"INRIX_CADES"` is assigned to `"data"`; otherwise (`elif`) one containing
`"TMC_Identification"` is assigned to `"meta"`; assignment overwrites, so the
last matching file wins. -/
def classifyInrixFile (acc : InrixYearFiles) (f : String) : InrixYearFiles :=
  if isCsvName f then
    if strContains f "INRIX_CADES" then { acc with dataFile := some f }
    else if strContains f "TMC_Identification" then { acc with metaFile := some f }
    else acc
  else acc

/-- The INRIX year directory `self.inrix_dir / f"INRIX_CADES_{year}"`
(src/datafiles.py line 100), with `inrix_dir = data_root / "CADES_INRIX"`. -/
def inrixYearDir (data_root year : String) : String :=
  data_root ++ "/CADES_INRIX/INRIX_CADES_" ++ year

/-- Embeds `_setup_inrix_data_files` (src/datafiles.py lines 95-109): a year
whose directory does not exist keeps its empty inner dictionary (the existence
check guards the scan); note the function itself never raises. -/
def setup_inrix_data_files (fs : FS) (data_root : String) (years : List String) :
    List (String × InrixYearFiles) :=
  years.map (fun year =>
    (year, match fs.iterdir (inrixYearDir data_root year) with
           | Except.ok files => files.foldl classifyInrixFile ⟨none, none⟩
           | Except.error _ => ⟨none, none⟩))

/-- Embeds `get_inrix(self, year, name)` (src/datafiles.py lines 164-165):
`self.inrix_data_files[year][name]` raises `KeyError` when the year is not a
key or when the inner dictionary has no entry for `name`. -/
def get_inrix (catalog : List (String × InrixYearFiles)) (year name : String) :
    Except PyErr String :=
  match List.lookup year catalog with
  | none => Except.error PyErr.keyError
  | some yf =>
    if name == "data" then
      match yf.dataFile with
      | some p => Except.ok p
      | none => Except.error PyErr.keyError
    else if name == "meta" then
      match yf.metaFile with
      | some p => Except.ok p
      | none => Except.error PyErr.keyError
    else Except.error PyErr.keyError

/-- Embeds `get_inrix_data` (src/datafiles.py lines 167-168). -/
def get_inrix_data (catalog : List (String × InrixYearFiles)) (year : String) :
    Except PyErr String :=
  get_inrix catalog year "data"

/-- Embeds `get_inrix_meta` (src/datafiles.py lines 170-171). -/
def get_inrix_meta (catalog : List (String × InrixYearFiles)) (year : String) :
    Except PyErr String :=
  get_inrix catalog year "meta"

/-- The per-corridor configuration of `_setup_portal_data_files`. -/
structure CorridorInfo where
  dirpath : String
  directions : List String
deriving DecidableEq, Repr

/-- The hard-coded `portal_corridors` table (src/datafiles.py lines 117-130),
with `portal_dir = data_root / "CADES_PORTAL"`. -/
def portal_corridors (portal_dir : String) : List (String × CorridorInfo) :=
  [("I5", ⟨portal_dir ++ "/I-5 Corridor", ["NB", "SB"]⟩),
   ("I205", ⟨portal_dir ++ "/I-205 Corridor", ["NB", "SB"]⟩),
   ("SR14", ⟨portal_dir ++ "/SR-14 Corridor", ["EB", "WB"]⟩)]

/-- The nested portal files dictionary: corridor ↦ year ↦ direction ↦ files. -/
abbrev PortalFileCollection :=
  List (String × List (String × List (String × List String)))

/-- Stepping stone keeping decidable equality of the nested dictionary within
the default instance-search limits. -/
instance : DecidableEq (List (String × List (String × List String))) :=
  inferInstance

/-- Decidable equality of the nested portal files dictionary. -/
instance : DecidableEq PortalFileCollection :=
  inferInstance

/-- The files of a corridor directory landing in one (year, direction) bucket.
The source's triple loop (src/datafiles.py lines 146-155) appends, in directory
order, every file whose name contains the year substring and the direction
substring, which is exactly this filter. -/
def bucketFiles (files : List String) (year direction : String) : List String :=
  files.filter (fun f => strContains f year && strContains f direction)

/-- Embeds the fill loop of `_setup_portal_data_files` for a list of corridors:
`dirpath.iterdir()` is called with no existence check, so a missing corridor
directory raises `FileNotFoundError` out of the whole build (corridors are
processed in table order, and the first failure aborts the loop). -/
def setupCorridors (fs : FS) (years : List String) :
    List (String × CorridorInfo) → Except PyErr PortalFileCollection
  | [] => Except.ok []
  | (c, info) :: rest =>
    match fs.iterdir info.dirpath with
    | Except.error e => Except.error e
    | Except.ok files =>
      match setupCorridors fs years rest with
      | Except.error e => Except.error e
      | Except.ok tail =>
        Except.ok ((c, years.map (fun y =>
          (y, info.directions.map (fun d => (d, bucketFiles files y d))))) :: tail)

/-- Embeds `_setup_portal_data_files` (src/datafiles.py lines 115-156). -/
def setup_portal_data_files (fs : FS) (portal_dir : String) (years : List String) :
    Except PyErr PortalFileCollection :=
  setupCorridors fs years (portal_corridors portal_dir)

/-- Embeds `get_portal_data` (src/datafiles.py lines 161-162):
`self.portal_data_files[corridor][year][direction]`, each missing key raising
`KeyError`. -/
def get_portal_data (c : PortalFileCollection) (corridor year direction : String) :
    Except PyErr (List String) :=
  match List.lookup corridor c with
  | none => Except.error PyErr.keyError
  | some ys =>
    match List.lookup year ys with
    | none => Except.error PyErr.keyError
    | some ds =>
      match List.lookup direction ds with
      | none => Except.error PyErr.keyError
      | some files => Except.ok files

/-- The `portal_meta_files` dictionary (src/datafiles.py lines 88-92), with
`portal_meta_dir = portal_dir / "metadata"`. -/
def portal_meta_files (portal_dir : String) : List (String × String) :=
  [("detectors", portal_dir ++ "/metadata/detectors.csv"),
   ("highways", portal_dir ++ "/metadata/highways.csv"),
   ("stations", portal_dir ++ "/metadata/stations.csv")]

/-- Embeds `get_portal_meta` (src/datafiles.py lines 158-159). -/
def get_portal_meta (portal_dir name : String) : Except PyErr String :=
  match List.lookup name (portal_meta_files portal_dir) with
  | none => Except.error PyErr.keyError
  | some p => Except.ok p

/-! ## Temporal merge engine — src/demo_create_joined_timeseries.py -/

/-- One row of the concatenated PORTAL (detector) time series after timestamp
parsing: `stationid`, `starttime` (a zoned instant in Int microseconds, `none`
when `pd.to_datetime(..., errors="coerce")` produced NaT), and `stationtt`
(travel time; minutes in the raw file). -/
structure PortalRow where
  stationid : String
  starttime : Option Int
  stationtt : Int
deriving DecidableEq, Repr

/-- One row of the INRIX (probe) time series after timestamp localization:
`tmc_code`, `measurement_tstamp` (zoned instant, Int microseconds),
`travel_time_seconds`. -/
structure InrixRow where
  tmc_code : String
  measurement_tstamp : Int
  travel_time_seconds : Int
deriving DecidableEq, Repr

/-- One row of the persisted spatial-join crosswalk
(`sjoined_portal_inrix_df`), restricted to the columns the merge engine reads:
`Tmc`, `stationid`, `RoadNumb_1`, and the years of the parsed `start_date` /
`end_date` (the filter only ever reads `.dt.year`; `none` = NaT / null date). -/
structure MetaRow where
  Tmc : String
  stationid : String
  RoadNumb_1 : String
  start_year : Option Int
  end_year : Option Int
deriving DecidableEq, Repr

/-- Embeds `re.sub(r"([A-Za-z]+)(\d+)", r"\1-\2", route_name)`
(src/demo_create_joined_timeseries.py line 37): every maximal run of letters
immediately followed by digits gets a dash spliced between letters and digits.
A fuel argument (initially the length of the list) drives the recursion; each
step consumes at least one character, so the fuel never runs out. -/
def adjustRouteAux : Nat → List Char → List Char
  | 0, _ => []
  | _, [] => []
  | fuel + 1, c :: rest =>
    if c.isAlpha then
      let letters := (c :: rest).takeWhile Char.isAlpha
      let afterL := (c :: rest).dropWhile Char.isAlpha
      let digits := afterL.takeWhile Char.isDigit
      if digits.isEmpty then letters ++ adjustRouteAux fuel afterL
      else letters ++ '-' :: (digits ++ adjustRouteAux fuel (afterL.dropWhile Char.isDigit))
    else c :: adjustRouteAux fuel rest

/-- The `adjusted_route_name` transform
(src/demo_create_joined_timeseries.py line 37). -/
def adjusted_route_name (route : String) : String :=
  String.mk (adjustRouteAux route.data.length route.data)

/-- Embeds `portal_data_df["stationtt"] = portal_data_df["stationtt"] * 60`
(src/demo_create_joined_timeseries.py lines 168-170): minutes to seconds. -/
def convert_stationtt (rows : List PortalRow) : List PortalRow :=
  rows.map (fun r => { r with stationtt := r.stationtt * 60 })

/-- Embeds the crosswalk filter building `portal_inrix_meta_df_filtered`
(src/demo_create_joined_timeseries.py lines 196-205): keep rows with
`RoadNumb_1 == adjusted_route_name`, `start_date.dt.year <= year`, and
(`end_date.dt.year >= year` or `end_date.isna()`).  A NaT `start_date` makes
the `<=` comparison false (pandas NaN comparisons are false), dropping the row. -/
def meta_filter (route : String) (year : Int) (meta : List MetaRow) : List MetaRow :=
  meta.filter (fun m =>
    m.RoadNumb_1 == adjusted_route_name route &&
    (match m.start_year with
     | some y0 => decide (y0 ≤ year)
     | none => false) &&
    (match m.end_year with
     | some y1 => decide (year ≤ y1)
     | none => true))

/-- First-occurrence deduplication with an accumulator of already-seen keys;
embeds pandas `Series.unique().tolist()`. -/
def uniqueFirstAux : List String → List String → List String
  | _, [] => []
  | seen, x :: xs =>
    if seen.contains x then uniqueFirstAux seen xs
    else x :: uniqueFirstAux (x :: seen) xs

/-- Embeds `Series.unique().tolist()`: the distinct values in order of first
occurrence. -/
def uniqueFirst (l : List String) : List String :=
  uniqueFirstAux [] l

/-- Embeds `tmcs_of_interest = portal_inrix_meta_df_filtered["Tmc"].unique().tolist()`
(src/demo_create_joined_timeseries.py line 208). -/
def tmcs_of_interest (metaF : List MetaRow) : List String :=
  uniqueFirst (metaF.map (fun m => m.Tmc))

/-- Embeds `station_ids_of_interest = portal_inrix_meta_df_filtered["stationid"].unique().tolist()`
(src/demo_create_joined_timeseries.py line 222). -/
def station_ids_of_interest (metaF : List MetaRow) : List String :=
  uniqueFirst (metaF.map (fun m => m.stationid))

/-- Embeds the INRIX row filter building `inrix_data_filtered_df`
(src/demo_create_joined_timeseries.py lines 211-214):
`tmc_code.isin(tmcs_of_interest)` and
`measurement_tstamp.between(start_dt, end_dt, inclusive="both")`. -/
def inrix_filter (tmcs : List String) (s e : Int) (rows : List InrixRow) :
    List InrixRow :=
  rows.filter (fun r =>
    tmcs.contains r.tmc_code &&
    decide (s ≤ r.measurement_tstamp) && decide (r.measurement_tstamp ≤ e))

/-- Pandas `Series.between(s, e, inclusive="both")` on a nullable timestamp:
a NaT value compares false. -/
def portal_between (t : Option Int) (s e : Int) : Bool :=
  match t with
  | some x => decide (s ≤ x) && decide (x ≤ e)
  | none => false

/-- Embeds the PORTAL row filter building `portal_data_filtered_df`
(src/demo_create_joined_timeseries.py lines 225-228):
`stationid.isin(station_ids_of_interest)` and
`starttime.between(start_dt, end_dt, inclusive="both")`. -/
def portal_filter (ids : List String) (s e : Int) (rows : List PortalRow) :
    List PortalRow :=
  rows.filter (fun r => ids.contains r.stationid && portal_between r.starttime s e)

/-- A row of `inrix_enriched`: the INRIX row with the crosswalk's `Tmc` and
`stationid` columns attached by the left merge (`none` = the NaN columns pandas
produces for an unmatched left row). -/
structure EnrichedRow where
  inrix : InrixRow
  Tmc : Option String
  stationid : Option String
deriving DecidableEq, Repr

/-- Embeds step 1 of the merge (src/demo_create_joined_timeseries.py
lines 237-243): `pd.merge(inrix_data_filtered_df,
sjoined_portal_inrix_df[["Tmc", "stationid"]], left_on="tmc_code",
right_on="Tmc", how="left")`.  Note the right side is the FULL crosswalk, not
the route/year-filtered one.  A left row with no match yields a single row
with null `Tmc`/`stationid`; a row with k matches yields k rows, in left-row
order then right-row order, which is pandas' left-merge row order. -/
def inrix_enrich (rows : List InrixRow) (meta : List MetaRow) : List EnrichedRow :=
  rows.flatMap (fun r =>
    let ms := meta.filter (fun m => m.Tmc == r.tmc_code)
    if ms.isEmpty then [⟨r, none, none⟩]
    else ms.map (fun m => ⟨r, some m.Tmc, some m.stationid⟩))

/-- A row of `merged_df` with the derived `diff` column, restricted to the
columns every claim reads. -/
structure MergedRow where
  stationid : String
  Tmc : Option String
  starttime : Option Int
  measurement_tstamp : Int
  stationtt : Int
  travel_time_seconds : Int
  diff : Int
deriving DecidableEq, Repr

/-- Builds one output row of the inner merge plus the derived column
`merged_df["diff"] = merged_df["stationtt"] - merged_df["travel_time_seconds"]`
(src/demo_create_joined_timeseries.py line 258). -/
def mkMerged (p : PortalRow) (e : EnrichedRow) : MergedRow :=
  ⟨p.stationid, e.Tmc, p.starttime, e.inrix.measurement_tstamp,
   p.stationtt, e.inrix.travel_time_seconds,
   p.stationtt - e.inrix.travel_time_seconds⟩

/-- Embeds step 2 of the merge (src/demo_create_joined_timeseries.py
lines 247-254): `pd.merge(portal_data_filtered_df, inrix_enriched,
left_on=["stationid", "starttime"], right_on=["stationid", "measurement_tstamp"],
how="inner")`.  An inner merge keeps exactly the key-equal pairs; a null key on
the right matches nothing. -/
def merge_inner (ps : List PortalRow) (es : List EnrichedRow) : List MergedRow :=
  ps.flatMap (fun p =>
    (es.filter (fun e =>
      e.stationid == some p.stationid &&
      p.starttime == some e.inrix.measurement_tstamp)).map (mkMerged p))

/-- The whole merge pipeline of src/demo_create_joined_timeseries.py
(lines 152-258) for the requested route/year and inclusive window `[s, e]`,
taking the already-loaded crosswalk, raw PORTAL rows (travel time still in
minutes) and parsed INRIX rows as inputs. -/
def merge_pipeline (route : String) (year : Int) (s e : Int)
    (meta : List MetaRow) (portalRaw : List PortalRow) (inrixRaw : List InrixRow) :
    List MergedRow :=
  let portal := convert_stationtt portalRaw
  let metaF := meta_filter route year meta
  let inrixF := inrix_filter (tmcs_of_interest metaF) s e inrixRaw
  let portalF := portal_filter (station_ids_of_interest metaF) s e portal
  merge_inner portalF (inrix_enrich inrixF meta)

/-! ## General helper lemmas -/

/-- Looking a key up in an association list built by tagging each list element
with a value computed from it finds the computed value, whenever the key is in
the underlying list. -/
theorem lookup_map_self {β : Type} (g : String → β) (l : List String) (k : String)
    (h : k ∈ l) : List.lookup k (l.map (fun x => (x, g x))) = some (g k) := by
  induction l with
  | nil => cases h
  | cons x xs ih =>
    simp only [List.map_cons, List.lookup]
    by_cases hx : k = x
    · simp [hx]
    · have hb : (k == x) = false := beq_eq_false_iff_ne.mpr hx
      simp only [hb]
      exact ih ((List.mem_cons.mp h).resolve_left hx)

/-- Counterpart of `lookup_map_self` for a key outside the underlying list. -/
theorem lookup_map_self_none {β : Type} (g : String → β) (l : List String)
    (k : String) (h : k ∉ l) :
    List.lookup k (l.map (fun x => (x, g x))) = none := by
  induction l with
  | nil => rfl
  | cons x xs ih =>
    simp only [List.map_cons, List.lookup]
    have hx : k ≠ x := fun he => h (he ▸ List.mem_cons_self x xs)
    have hb : (k == x) = false := beq_eq_false_iff_ne.mpr hx
    simp only [hb]
    exact ih (fun hm => h (List.mem_cons_of_mem x hm))

/-- Membership in `uniqueFirstAux`: an element is produced exactly when it is
in the remaining input and not among the already-seen keys. -/
theorem mem_uniqueFirstAux (y : String) (l : List String) :
    ∀ seen, y ∈ uniqueFirstAux seen l ↔ y ∈ l ∧ y ∉ seen := by
  induction l with
  | nil =>
    intro seen
    simp [uniqueFirstAux]
  | cons x xs ih =>
    intro seen
    by_cases hx : x ∈ seen
    · rw [uniqueFirstAux, if_pos (by simpa using hx), ih]
      constructor
      · rintro ⟨hm, hs⟩
        exact ⟨List.mem_cons_of_mem x hm, hs⟩
      · rintro ⟨hm, hs⟩
        rcases List.mem_cons.mp hm with he | hm
        · subst he
          exact absurd hx hs
        · exact ⟨hm, hs⟩
    · rw [uniqueFirstAux, if_neg (by simpa using hx)]
      constructor
      · intro h
        rcases List.mem_cons.mp h with he | hm
        · subst he
          exact ⟨List.mem_cons_self y xs, hx⟩
        · rcases (ih (x :: seen)).mp hm with ⟨h1, h2⟩
          exact ⟨List.mem_cons_of_mem x h1,
            fun hy => h2 (List.mem_cons_of_mem x hy)⟩
      · rintro ⟨hm, hs⟩
        rcases List.mem_cons.mp hm with he | hm
        · subst he
          exact List.mem_cons_self y _
        · by_cases hyx : y = x
          · subst hyx
            exact List.mem_cons_self y _
          · refine List.mem_cons_of_mem x ((ih (x :: seen)).mpr ⟨hm, fun hy => ?_⟩)
            rcases List.mem_cons.mp hy with he | hy2
            · exact hyx he
            · exact hs hy2

/-- Membership in the deduplicated list is membership in the original. -/
theorem mem_uniqueFirst (y : String) (l : List String) :
    y ∈ uniqueFirst l ↔ y ∈ l := by
  rw [uniqueFirst, mem_uniqueFirstAux]
  simp

/-! ## Claims C3 and C4 — direction normalization -/

/-- Every value the primary vocabulary table can produce is in the spec's
direction enumeration (with `none` = UNKNOWN). -/
theorem dictGet_direction_map_std (k : String) :
    isStdDirection (dictGet direction_map k) = true := by
  simp only [dictGet, direction_map, List.lookup]
  repeat' split
  all_goals rfl

/-- Every value the bound-code table can produce is in the spec's direction
enumeration (with `none` = UNKNOWN). -/
theorem dictGet_bound_map_std (k : String) :
    isStdDirection (dictGet bound_map k) = true := by
  simp only [dictGet, bound_map, List.lookup]
  repeat' split
  all_goals rfl

/-- C3 (counterexample): a missing (`None`) raw direction makes
`standardize_direction` raise `AttributeError` (from `direction.upper()`), even
with a perfectly valid bound code — the claim says it never raises for missing
or non-string direction input. -/
theorem standardize_direction_raises_on_none :
    standardize_direction RawVal.null (RawVal.str "NB") =
      Except.error PyErr.attributeError ∧
    ¬ ∃ v, standardize_direction RawVal.null (RawVal.str "NB") = Except.ok v := by
  refine ⟨rfl, ?_⟩
  rintro ⟨v, hv⟩
  cases hv

/-- C3 (amended): on a string raw direction, with the bound either absent
(`None`) or itself a string, `standardize_direction` is total and deterministic:
it returns (never raises) a member of the direction enumeration, and unmappable
input yields UNKNOWN (`None`) — pinned by the last two conjuncts: with no
primary-table match and no bound, the result is `None`, and with no
primary-table match and a bound that the bound table also fails to map, the
result is again `None`.  A missing or non-string (NaN) direction — and a NaN
bound, when the fallback is consulted — raises `AttributeError` instead. -/
theorem standardize_direction_total_on_strings (d : String) (b : RawVal)
    (hb : b ≠ RawVal.nan) :
    (∃ v, standardize_direction (RawVal.str d) b = Except.ok v ∧
      isStdDirection v = true) ∧
    (dictGet direction_map (pyUpper d) = none → b = RawVal.null →
      standardize_direction (RawVal.str d) b = Except.ok none) ∧
    (∀ bs, b = RawVal.str bs → dictGet direction_map (pyUpper d) = none →
      dictGet bound_map (pyUpper bs) = none →
      standardize_direction (RawVal.str d) b = Except.ok none) := by
  refine ⟨?_, ?_, ?_⟩
  · cases hdir : dictGet direction_map (pyUpper d) with
    | some v =>
      refine ⟨some v, ?_, ?_⟩
      · simp [standardize_direction, hdir]
      · have h := dictGet_direction_map_std (pyUpper d)
        rw [hdir] at h
        exact h
    | none =>
      cases b with
      | null => exact ⟨none, by simp [standardize_direction, hdir], rfl⟩
      | nan => exact absurd rfl hb
      | str s =>
        exact ⟨dictGet bound_map (pyUpper s),
          by simp [standardize_direction, hdir], dictGet_bound_map_std _⟩
  · intro hdir hnull
    subst hnull
    simp [standardize_direction, hdir]
  · intro bs hstr hdir hbound
    subst hstr
    simp [standardize_direction, hdir, hbound]

/-- C3 (witness): the amended theorem applied at the unmappable string
direction `"bogus"` with the UNKNOWN-mapped bound code `"ZB"`, whose result the
unmappable arm pins to `None`. -/
theorem standardize_direction_total_on_strings_witness :
    (RawVal.str "ZB") ≠ RawVal.nan ∧
    standardize_direction (RawVal.str "bogus") (RawVal.str "ZB") =
      Except.ok none :=
  ⟨by decide,
    (standardize_direction_total_on_strings "bogus" (RawVal.str "ZB")
      (by decide)).2.2 "ZB" rfl (by decide) (by decide)⟩

/-- C4 (counterexample): the claim says `normalize("CONST", bound)` is UNKNOWN
for every bound code, but with bound `"NB"` the source returns `"NORTH"`: the
`dict.get` result for the explicit `"CONST" : None` entry is indistinguishable
from a miss, so the bound fallback fires. -/
theorem standardize_direction_const_nb_is_north :
    standardize_direction (RawVal.str "CONST") (RawVal.str "NB") =
      Except.ok (some "NORTH") ∧
    standardize_direction (RawVal.str "CONST") (RawVal.str "NB") ≠
      Except.ok none := by
  constructor
  · rfl
  · decide

/-- C4 (amended): `"CONST"` is an exact entry of the primary table mapping to
UNKNOWN (`None`), but because that result is indistinguishable from a missed
lookup, the bound fallback fires for `"CONST"` whenever a bound is supplied:
`normalize("CONST", bound)` equals the bound-table result for a string bound
(e.g. NORTH for `"NB"`), and is UNKNOWN only when the bound is absent or itself
maps to UNKNOWN (`"JB"`, `"ZB"`, or an unrecognized code). -/
theorem standardize_direction_const_falls_back :
    (∀ b : String, standardize_direction (RawVal.str "CONST") (RawVal.str b) =
        Except.ok (dictGet bound_map (pyUpper b))) ∧
    standardize_direction (RawVal.str "CONST") RawVal.null = Except.ok none ∧
    standardize_direction (RawVal.str "CONST") (RawVal.str "ZB") =
      Except.ok none ∧
    List.lookup "CONST" direction_map = some none := by
  refine ⟨fun b => rfl, rfl, rfl, rfl⟩

/-! ## Claim C5 — geometry decode error handling -/

/-- C5: empty or whitespace-only payloads (and null/NaN cells) decode to null
with nothing surfaced; a payload rejected by hex decoding, or decoded to bytes
the geometry reader rejects, yields null with the triggering error surfaced
only in the observability component of the result — `wkb_to_geom` is a total
function, never propagating an error to the caller.  Concrete instances:
corrupted hex `"zz"` and valid-hex-invalid-geometry `"ffff"`. -/
theorem wkb_to_geom_error_handling :
    wkb_to_geom (RawVal.str "") = (none, none) ∧
    wkb_to_geom (RawVal.str "   ") = (none, none) ∧
    wkb_to_geom RawVal.null = (none, none) ∧
    wkb_to_geom RawVal.nan = (none, none) ∧
    (∀ s, stripIsEmpty s = false →
       bytesFromHex s = Except.error PyErr.valueError →
       wkb_to_geom (RawVal.str s) = (none, some PyErr.valueError)) ∧
    (∀ s bs e, stripIsEmpty s = false → bytesFromHex s = Except.ok bs →
       wkb_loads bs = Except.error e →
       wkb_to_geom (RawVal.str s) = (none, some e)) ∧
    wkb_to_geom (RawVal.str "zz") = (none, some PyErr.valueError) ∧
    wkb_to_geom (RawVal.str "ffff") = (none, some PyErr.valueError) := by
  refine ⟨rfl, rfl, rfl, rfl, ?_, ?_, rfl, rfl⟩
  · intro s hs hhex
    simp [wkb_to_geom, hs, hhex]
  · intro s bs e hs hhex hload
    simp [wkb_to_geom, hs, hhex, hload]

/-- C5 (witness): the malformed-hex arm of the theorem applied at the concrete
corrupted payload `"zz"`. -/
theorem wkb_to_geom_error_handling_witness :
    stripIsEmpty "zz" = false ∧
    bytesFromHex "zz" = Except.error PyErr.valueError ∧
    wkb_to_geom (RawVal.str "zz") = (none, some PyErr.valueError) :=
  ⟨by decide, by decide,
    wkb_to_geom_error_handling.2.2.2.2.1 "zz" (by decide) (by decide)⟩

/-! ## Claim C6 — timestamp normalization round trip -/

/-- A decimal digit is never the dot character. -/
theorem digit_ne_dot {c : Char} (h : c.isDigit = true) : c ≠ '.' := by
  intro h2
  rw [h2] at h
  exact absurd h (by decide)

/-- C6: (i) a trailing bare `±HH` offset gets `":00"` appended, (ii) with no
fractional-seconds dot present, `".000000"` is inserted immediately before a
trailing `±HH:MM` offset; consequently the fixture string
`"2023-10-01T08:00:00-08"` normalizes to exactly the canonical string
`"2023-10-01T08:00:00.000000-08:00"` — so normalizing then parsing it yields
the same instant as parsing the canonical string directly, for any parser —
and a missing (null/NaN) input normalizes to null. -/
theorem normalize_timestamp_round_trip :
    (∀ (p : List Char) (c d1 d2 : Char), (c = '-' ∨ c = '+') →
       d1.isDigit = true → d2.isDigit = true →
       normalize_timezone (String.mk (p ++ [c, d1, d2])) =
         String.mk (p ++ [c, d1, d2]) ++ ":00") ∧
    (∀ (p : List Char) (sgn h1 h2 m1 m2 : Char), (sgn = '-' ∨ sgn = '+') →
       h1.isDigit = true → h2.isDigit = true →
       m1.isDigit = true → m2.isDigit = true → '.' ∉ p →
       add_default_microseconds (String.mk (p ++ [sgn, h1, h2, ':', m1, m2])) =
         String.mk (p ++ ".000000".data ++ [sgn, h1, h2, ':', m1, m2])) ∧
    normalize_timestamp (RawVal.str "2023-10-01T08:00:00-08") =
      some "2023-10-01T08:00:00.000000-08:00" ∧
    normalize_timestamp RawVal.null = none ∧
    normalize_timestamp RawVal.nan = none ∧
    (∀ parseInstant : String → Option Int,
       (normalize_timestamp (RawVal.str "2023-10-01T08:00:00-08")).bind
           parseInstant =
         parseInstant "2023-10-01T08:00:00.000000-08:00") := by
  refine ⟨?_, ?_, by decide, rfl, rfl, ?_⟩
  · intro p c d1 d2 hc h1 h2
    have hoff : endsWithBareOffset (p ++ [c, d1, d2]) = true := by
      unfold endsWithBareOffset
      rw [show (p ++ [c, d1, d2]).reverse = d2 :: d1 :: c :: p.reverse from by simp]
      rcases hc with h | h <;> subst h <;> simp [h1, h2]
    unfold normalize_timezone
    rw [show (String.mk (p ++ [c, d1, d2])).data = p ++ [c, d1, d2] from rfl, hoff]
    simp
  · intro p sgn h1 h2 m1 m2 hs hh1 hh2 hm1 hm2 hp
    have hnodot : '.' ∉ p ++ [sgn, h1, h2, ':', m1, m2] := by
      intro hmem
      rcases List.mem_append.mp hmem with h | h
      · exact hp h
      · rcases List.mem_cons.mp h with h | h
        · rcases hs with h2 | h2 <;> subst h2 <;> exact absurd h (by decide)
        rcases List.mem_cons.mp h with h | h
        · exact (digit_ne_dot hh1) h.symm
        rcases List.mem_cons.mp h with h | h
        · exact (digit_ne_dot hh2) h.symm
        rcases List.mem_cons.mp h with h | h
        · exact absurd h (by decide)
        rcases List.mem_cons.mp h with h | h
        · exact (digit_ne_dot hm1) h.symm
        rcases List.mem_cons.mp h with h | h
        · exact (digit_ne_dot hm2) h.symm
        · exact absurd h (List.not_mem_nil _)
    have hcontains : (p ++ [sgn, h1, h2, ':', m1, m2]).contains '.' = false := by
      simp [hnodot]
    have hoff : endsWithFullOffset (p ++ [sgn, h1, h2, ':', m1, m2]) = true := by
      unfold endsWithFullOffset
      rw [show (p ++ [sgn, h1, h2, ':', m1, m2]).reverse =
        m2 :: m1 :: ':' :: h2 :: h1 :: sgn :: p.reverse from by simp]
      rcases hs with h | h <;> subst h <;> simp [hh1, hh2, hm1, hm2]
    have hlen : (p ++ [sgn, h1, h2, ':', m1, m2]).length - 6 = p.length := by
      simp
    unfold add_default_microseconds
    rw [show (String.mk (p ++ [sgn, h1, h2, ':', m1, m2])).data =
      p ++ [sgn, h1, h2, ':', m1, m2] from rfl]
    rw [hcontains, hoff, hlen, List.take_left, List.drop_left]
    simp
  · intro parseInstant
    rw [show normalize_timestamp (RawVal.str "2023-10-01T08:00:00-08") =
      some "2023-10-01T08:00:00.000000-08:00" from by decide]
    rfl

/-- C6 (witness): both rewriting arms of the theorem applied at the fixture
timestamp's components. -/
theorem normalize_timestamp_round_trip_witness :
    normalize_timezone (String.mk ("2023-10-01T08:00:00".data ++ ['-', '0', '8'])) =
      String.mk ("2023-10-01T08:00:00".data ++ ['-', '0', '8']) ++ ":00" ∧
    add_default_microseconds
        (String.mk ("2023-10-01T08:00:00".data ++ ['-', '0', '8', ':', '0', '0'])) =
      String.mk ("2023-10-01T08:00:00".data ++ ".000000".data ++
        ['-', '0', '8', ':', '0', '0']) :=
  ⟨normalize_timestamp_round_trip.1 "2023-10-01T08:00:00".data '-' '0' '8'
      (Or.inl rfl) (by decide) (by decide),
    normalize_timestamp_round_trip.2.1 "2023-10-01T08:00:00".data '-' '0' '8'
      '0' '0' (Or.inl rfl) (by decide) (by decide) (by decide) (by decide)
      (by decide)⟩

/-! ## Claim C2 — catalog build with a missing dataset subdirectory -/

/-- A filesystem in which the detector corridor directory `"I-5 Corridor"` does
not exist (the other two corridor directories do, and are empty). -/
def fs_no_i5 : FS :=
  ⟨[("data/CADES_PORTAL/I-205 Corridor", []),
    ("data/CADES_PORTAL/SR-14 Corridor", [])]⟩

/-- A filesystem in which all three detector corridor directories exist but are
empty. -/
def fs_empty_corridors : FS :=
  ⟨[("data/CADES_PORTAL/I-5 Corridor", []),
    ("data/CADES_PORTAL/I-205 Corridor", []),
    ("data/CADES_PORTAL/SR-14 Corridor", [])]⟩

/-- C2 (counterexample): catalog build on a root where the detector corridor
directory `"I-5 Corridor"` does not exist raises `FileNotFoundError` (the
source calls `dirpath.iterdir()` with no existence check), rather than
completing with empty file lists as the claim states. -/
theorem setup_portal_raises_on_missing_corridor :
    setup_portal_data_files fs_no_i5 "data/CADES_PORTAL" ["2023"] =
      Except.error PyErr.fileNotFoundError := by
  decide

/-- C2 (amended): the "no files found" degradation holds for the probe
dataset — a missing INRIX year directory yields an empty entry without error,
because `_setup_inrix_data_files` guards the scan with an existence check — and
for a detector corridor directory that exists but matches no files; but a
detector corridor directory that does not exist makes the catalog build raise
`FileNotFoundError` instead of degrading. -/
theorem setup_missing_directory_behaviour :
    setup_inrix_data_files (FS.mk []) "data" ["2023"] =
      [("2023", ⟨none, none⟩)] ∧
    setup_portal_data_files fs_empty_corridors "data/CADES_PORTAL" ["2023"] =
      Except.ok
        [("I5", [("2023", [("NB", []), ("SB", [])])]),
         ("I205", [("2023", [("NB", []), ("SB", [])])]),
         ("SR14", [("2023", [("EB", []), ("WB", [])])])] ∧
    setup_portal_data_files fs_no_i5 "data/CADES_PORTAL" ["2023"] =
      Except.error PyErr.fileNotFoundError := by
  refine ⟨by decide, by decide, by decide⟩

/-! ## Claim C7 — inclusive-both window filtering -/

/-- Membership in the INRIX row filter. -/
theorem mem_inrix_filter (tmcs : List String) (s e : Int) (rows : List InrixRow)
    (r : InrixRow) : r ∈ inrix_filter tmcs s e rows ↔
      r ∈ rows ∧ tmcs.contains r.tmc_code = true ∧
        s ≤ r.measurement_tstamp ∧ r.measurement_tstamp ≤ e := by
  simp [inrix_filter, List.mem_filter, and_assoc]

/-- Membership in the PORTAL row filter. -/
theorem mem_portal_filter (ids : List String) (s e : Int) (rows : List PortalRow)
    (r : PortalRow) : r ∈ portal_filter ids s e rows ↔
      r ∈ rows ∧ ids.contains r.stationid = true ∧
        ∃ t, r.starttime = some t ∧ s ≤ t ∧ t ≤ e := by
  simp only [portal_filter, List.mem_filter, Bool.and_eq_true, and_assoc]
  refine and_congr_right (fun _ => and_congr_right (fun _ => ?_))
  cases ht : r.starttime with
  | none => simp [portal_between, ht]
  | some t => simp [portal_between, ht]

/-- C7: both series' window filters keep a row exactly when the (non-null)
timestamp satisfies `start ≤ t ∧ t ≤ e`; a row exactly at either boundary is
kept (for a nonempty window), and a row one microsecond before the start or one
after the end is dropped.  Timestamps are Int microseconds. -/
theorem window_filter_inclusive_both :
    (∀ (tmcs : List String) (s e : Int) (rows : List InrixRow) (r : InrixRow),
       r ∈ inrix_filter tmcs s e rows ↔
         r ∈ rows ∧ tmcs.contains r.tmc_code = true ∧
           s ≤ r.measurement_tstamp ∧ r.measurement_tstamp ≤ e) ∧
    (∀ (ids : List String) (s e : Int) (rows : List PortalRow) (r : PortalRow),
       r ∈ portal_filter ids s e rows ↔
         r ∈ rows ∧ ids.contains r.stationid = true ∧
           ∃ t, r.starttime = some t ∧ s ≤ t ∧ t ≤ e) ∧
    (∀ (tmcs : List String) (s e : Int) (rows : List InrixRow) (r : InrixRow),
       r ∈ rows → tmcs.contains r.tmc_code = true → s ≤ e →
       (r.measurement_tstamp = s ∨ r.measurement_tstamp = e) →
       r ∈ inrix_filter tmcs s e rows) ∧
    (∀ (tmcs : List String) (s e : Int) (rows : List InrixRow) (r : InrixRow),
       (r.measurement_tstamp = s - 1 ∨ r.measurement_tstamp = e + 1) →
       r ∉ inrix_filter tmcs s e rows) ∧
    (∀ (ids : List String) (s e : Int) (rows : List PortalRow) (r : PortalRow),
       r ∈ rows → ids.contains r.stationid = true → s ≤ e →
       (r.starttime = some s ∨ r.starttime = some e) →
       r ∈ portal_filter ids s e rows) ∧
    (∀ (ids : List String) (s e : Int) (rows : List PortalRow) (r : PortalRow),
       (r.starttime = some (s - 1) ∨ r.starttime = some (e + 1)) →
       r ∉ portal_filter ids s e rows) := by
  have hi := mem_inrix_filter
  have hp := mem_portal_filter
  refine ⟨hi, hp, ?_, ?_, ?_, ?_⟩
  · intro tmcs s e rows r hr hc hse hb
    exact (hi tmcs s e rows r).mpr ⟨hr, hc, by rcases hb with h | h <;> omega⟩
  · intro tmcs s e rows r hb hmem
    rcases (hi tmcs s e rows r).mp hmem with ⟨_, _, h1, h2⟩
    rcases hb with h | h <;> omega
  · intro ids s e rows r hr hc hse hb
    refine (hp ids s e rows r).mpr ⟨hr, hc, ?_⟩
    rcases hb with h | h
    · exact ⟨s, h, le_refl s, hse⟩
    · exact ⟨e, h, hse, le_refl e⟩
  · intro ids s e rows r hb hmem
    rcases (hp ids s e rows r).mp hmem with ⟨_, _, t, ht, h1, h2⟩
    rcases hb with h | h <;> rw [h] at ht <;> cases Option.some_inj.mp ht <;> omega

/-- C7 (witness): boundary inclusion applied at a concrete probe row sitting
exactly on the window start. -/
theorem window_filter_inclusive_both_witness :
    (⟨"T1", 0, 250⟩ : InrixRow) ∈ inrix_filter ["T1"] 0 5 [⟨"T1", 0, 250⟩] :=
  window_filter_inclusive_both.2.2.1 ["T1"] 0 5 [⟨"T1", 0, 250⟩] ⟨"T1", 0, 250⟩
    (by decide) (by decide) (by decide) (Or.inl rfl)

/-! ## Claim C9 — crosswalk route/active-year filter -/

/-- The boolean row predicate of the crosswalk filter, as a proposition. -/
theorem meta_filter_cond_iff (route : String) (year : Int) (m : MetaRow) :
    ((m.RoadNumb_1 == adjusted_route_name route &&
      (match m.start_year with
       | some y0 => decide (y0 ≤ year)
       | none => false) &&
      (match m.end_year with
       | some y1 => decide (year ≤ y1)
       | none => true)) = true) ↔
      (m.RoadNumb_1 = adjusted_route_name route ∧
        (∃ y0, m.start_year = some y0 ∧ y0 ≤ year) ∧
        (m.end_year = none ∨ ∃ y1, m.end_year = some y1 ∧ year ≤ y1)) := by
  rcases m with ⟨tmc, sid, rn, sy, ey⟩
  rcases sy with _ | y0 <;> rcases ey with _ | y1 <;>
    simp [Bool.and_eq_true, and_assoc]

/-- C9: the crosswalk filtering step keeps exactly the rows whose `RoadNumb_1`
equals the requested route after the identifier-formatting transform (which
maps `"I205"` to `"I-205"`), whose start year is at most the requested year,
and whose end date either covers the requested year or is null (a null
active-end-date row still counts as active). -/
theorem meta_filter_membership :
    adjusted_route_name "I205" = "I-205" ∧
    (∀ (route : String) (year : Int) (meta : List MetaRow) (m : MetaRow),
       m ∈ meta_filter route year meta ↔
         m ∈ meta ∧ m.RoadNumb_1 = adjusted_route_name route ∧
           (∃ y0, m.start_year = some y0 ∧ y0 ≤ year) ∧
           (m.end_year = none ∨ ∃ y1, m.end_year = some y1 ∧ year ≤ y1)) := by
  refine ⟨by decide, ?_⟩
  intro route year meta m
  rw [meta_filter, List.mem_filter, meta_filter_cond_iff]

/-! ## Claim C10 — inrix accessors on an in-range year with missing files -/

/-- A filesystem whose only directory is the one INRIX year directory, holding
the given files. -/
def fsInrixOneYear (data_root year : String) (files : List String) : FS :=
  ⟨[(inrixYearDir data_root year, files)]⟩

/-- If no file of the scan sets the `"data"` key, the key stays unset. -/
theorem foldl_classify_dataFile_none (files : List String) (acc : InrixYearFiles)
    (h : ∀ f ∈ files, ¬(isCsvName f = true ∧ strContains f "INRIX_CADES" = true)) :
    (files.foldl classifyInrixFile acc).dataFile = acc.dataFile := by
  induction files generalizing acc with
  | nil => rfl
  | cons f fs ih =>
    rw [List.foldl_cons, ih _ (fun g hg => h g (List.mem_cons_of_mem f hg))]
    have hf := h f (List.mem_cons_self f fs)
    unfold classifyInrixFile
    by_cases h1 : isCsvName f = true
    · by_cases h2 : strContains f "INRIX_CADES" = true
      · exact absurd ⟨h1, h2⟩ hf
      · by_cases h3 : strContains f "TMC_Identification" = true <;>
          simp [h1, h2, h3]
    · simp [h1]

/-- If no file of the scan can set the `"meta"` key, the key stays unset (a
file carrying the data tag sets only `"data"`, so the hypothesis only needs to
exclude csv files carrying the metadata tag). -/
theorem foldl_classify_metaFile_none (files : List String) (acc : InrixYearFiles)
    (h : ∀ f ∈ files,
      ¬(isCsvName f = true ∧ strContains f "TMC_Identification" = true)) :
    (files.foldl classifyInrixFile acc).metaFile = acc.metaFile := by
  induction files generalizing acc with
  | nil => rfl
  | cons f fs ih =>
    rw [List.foldl_cons, ih _ (fun g hg => h g (List.mem_cons_of_mem f hg))]
    have hf := h f (List.mem_cons_self f fs)
    unfold classifyInrixFile
    by_cases h1 : isCsvName f = true
    · by_cases h2 : strContains f "INRIX_CADES" = true
      · simp [h1, h2]
      · by_cases h3 : strContains f "TMC_Identification" = true
        · exact absurd ⟨h1, h3⟩ hf
        · simp [h1, h2, h3]
    · simp [h1]

/-- The catalog entry the scan computes for one year, as stored by
`setup_inrix_data_files`. -/
def inrixYearEntry (fs : FS) (data_root year : String) : InrixYearFiles :=
  match fs.iterdir (inrixYearDir data_root year) with
  | Except.ok files => files.foldl classifyInrixFile ⟨none, none⟩
  | Except.error _ => ⟨none, none⟩

/-- The setup function is the per-year entry tagged with its year key. -/
theorem setup_inrix_eq_map (fs : FS) (data_root : String) (years : List String) :
    setup_inrix_data_files fs data_root years =
      years.map (fun y => (y, inrixYearEntry fs data_root y)) := rfl

/-- C10: for an in-range year whose directory exists but holds no csv file
carrying the data tag (resp. the metadata tag), `get_inrix_data` (resp.
`get_inrix_meta`) raises `KeyError` — exactly what any accessor does for an
out-of-range year — and a csv filename carrying both tags is classified as
data only, the data-tag test taking precedence. -/
theorem get_inrix_keyerror_on_missing_file :
    (∀ (root year : String) (years : List String) (files : List String),
       year ∈ years →
       (∀ f ∈ files, ¬(isCsvName f = true ∧ strContains f "INRIX_CADES" = true)) →
       get_inrix_data
           (setup_inrix_data_files (fsInrixOneYear root year files) root years)
           year = Except.error PyErr.keyError) ∧
    (∀ (root year : String) (years : List String) (files : List String),
       year ∈ years →
       (∀ f ∈ files,
         ¬(isCsvName f = true ∧ strContains f "TMC_Identification" = true)) →
       get_inrix_meta
           (setup_inrix_data_files (fsInrixOneYear root year files) root years)
           year = Except.error PyErr.keyError) ∧
    (∀ (fs : FS) (root year : String) (years : List String) (name : String),
       year ∉ years →
       get_inrix (setup_inrix_data_files fs root years) year name =
         Except.error PyErr.keyError) ∧
    setup_inrix_data_files
        (fsInrixOneYear "d" "2023" ["INRIX_CADES_TMC_Identification_2023.csv"])
        "d" ["2023"] =
      [("2023", ⟨some "INRIX_CADES_TMC_Identification_2023.csv", none⟩)] := by
  have hentry : ∀ (root year : String) (files : List String),
      inrixYearEntry (fsInrixOneYear root year files) root year =
        files.foldl classifyInrixFile ⟨none, none⟩ := by
    intro root year files
    simp [inrixYearEntry, fsInrixOneYear, FS.iterdir, List.lookup]
  refine ⟨?_, ?_, ?_, by decide⟩
  · intro root year years files hy hnone
    rw [get_inrix_data, get_inrix, setup_inrix_eq_map,
      lookup_map_self (inrixYearEntry (fsInrixOneYear root year files) root) years
        year hy, hentry]
    simp [foldl_classify_dataFile_none files ⟨none, none⟩ hnone]
  · intro root year years files hy hnone
    rw [get_inrix_meta, get_inrix, setup_inrix_eq_map,
      lookup_map_self (inrixYearEntry (fsInrixOneYear root year files) root) years
        year hy, hentry]
    simp [foldl_classify_metaFile_none files ⟨none, none⟩ hnone]
  · intro fs root year years name hy
    rw [get_inrix, setup_inrix_eq_map,
      lookup_map_self_none (inrixYearEntry fs root) years year hy]

/-- C10 (witness): the data-accessor arm applied at a year directory holding
only a non-matching file, inside the configured year range. -/
theorem get_inrix_keyerror_on_missing_file_witness :
    "2023" ∈ ["2023"] ∧
    get_inrix_data
        (setup_inrix_data_files (fsInrixOneYear "d" "2023" ["readme.txt"]) "d"
          ["2023"]) "2023" = Except.error PyErr.keyError :=
  ⟨by decide, get_inrix_keyerror_on_missing_file.1 "d" "2023" ["2023"]
    ["readme.txt"] (by decide) (by decide)⟩

/-! ## Claim C8 — portal data-files lookup contract -/

/-- A filesystem holding the three detector corridor directories with given
contents, under the root `"data"` (so `portal_dir = "data/CADES_PORTAL"`). -/
def fsPortal (f5 f205 f14 : List String) : FS :=
  ⟨[("data/CADES_PORTAL" ++ "/I-5 Corridor", f5),
    ("data/CADES_PORTAL" ++ "/I-205 Corridor", f205),
    ("data/CADES_PORTAL" ++ "/SR-14 Corridor", f14)]⟩

/-- The catalog the build produces on `fsPortal`: each corridor key carries,
for every configured year, one bucket per valid direction holding the filtered
files. -/
def portalCatalog (f5 f205 f14 : List String) (years : List String) :
    PortalFileCollection :=
  [("I5", years.map (fun y =>
      (y, [("NB", bucketFiles f5 y "NB"), ("SB", bucketFiles f5 y "SB")]))),
   ("I205", years.map (fun y =>
      (y, [("NB", bucketFiles f205 y "NB"), ("SB", bucketFiles f205 y "SB")]))),
   ("SR14", years.map (fun y =>
      (y, [("EB", bucketFiles f14 y "EB"), ("WB", bucketFiles f14 y "WB")])))]

/-- Directory listings of the three corridor directories on `fsPortal`. -/
theorem iterdir_fsPortal (f5 f205 f14 : List String) :
    FS.iterdir (fsPortal f5 f205 f14) ("data/CADES_PORTAL" ++ "/I-5 Corridor") =
        Except.ok f5 ∧
    FS.iterdir (fsPortal f5 f205 f14) ("data/CADES_PORTAL" ++ "/I-205 Corridor") =
        Except.ok f205 ∧
    FS.iterdir (fsPortal f5 f205 f14) ("data/CADES_PORTAL" ++ "/SR-14 Corridor") =
        Except.ok f14 := by
  refine ⟨?_, ?_, ?_⟩ <;>
    simp [FS.iterdir, fsPortal, List.lookup,
      show (("data/CADES_PORTAL" ++ "/I-205 Corridor" : String) ==
        "data/CADES_PORTAL" ++ "/I-5 Corridor") = false from by decide,
      show (("data/CADES_PORTAL" ++ "/SR-14 Corridor" : String) ==
        "data/CADES_PORTAL" ++ "/I-5 Corridor") = false from by decide,
      show (("data/CADES_PORTAL" ++ "/SR-14 Corridor" : String) ==
        "data/CADES_PORTAL" ++ "/I-205 Corridor") = false from by decide]

/-- The catalog build on `fsPortal` succeeds and produces `portalCatalog`. -/
theorem setup_portal_ok (f5 f205 f14 : List String) (years : List String) :
    setup_portal_data_files (fsPortal f5 f205 f14) "data/CADES_PORTAL" years =
      Except.ok (portalCatalog f5 f205 f14 years) := by
  obtain ⟨h1, h2, h3⟩ := iterdir_fsPortal f5 f205 f14
  simp only [setup_portal_data_files, portal_corridors, setupCorridors,
    h1, h2, h3]
  rfl

/-- Bucket membership: a file lands in a (year, direction) bucket exactly when
its name contains both substrings. -/
theorem mem_bucketFiles (files : List String) (year direction f : String) :
    f ∈ bucketFiles files year direction ↔
      f ∈ files ∧ strContains f year = true ∧ strContains f direction = true := by
  simp [bucketFiles, List.mem_filter, and_assoc]

/-- C8: building on a fixture tree, every valid (corridor, year, direction) key
looks up exactly the corridor-directory files whose names contain both the year
and the direction substrings (an empty result is an `ok []`, not an error),
while an unknown corridor, an out-of-range year, or an unrecognized metadata
name raises `KeyError` and never produces a path. -/
theorem dataFiles_lookup_contract :
    (∀ (f5 f205 f14 : List String) (years : List String),
       setup_portal_data_files (fsPortal f5 f205 f14) "data/CADES_PORTAL" years =
         Except.ok (portalCatalog f5 f205 f14 years)) ∧
    (∀ (files : List String) (year direction f : String),
       f ∈ bucketFiles files year direction ↔
         f ∈ files ∧ strContains f year = true ∧
           strContains f direction = true) ∧
    (∀ (f5 f205 f14 : List String) (years : List String) (year : String),
       year ∈ years →
       get_portal_data (portalCatalog f5 f205 f14 years) "I5" year "NB" =
           Except.ok (bucketFiles f5 year "NB") ∧
       get_portal_data (portalCatalog f5 f205 f14 years) "I5" year "SB" =
           Except.ok (bucketFiles f5 year "SB") ∧
       get_portal_data (portalCatalog f5 f205 f14 years) "I205" year "NB" =
           Except.ok (bucketFiles f205 year "NB") ∧
       get_portal_data (portalCatalog f5 f205 f14 years) "I205" year "SB" =
           Except.ok (bucketFiles f205 year "SB") ∧
       get_portal_data (portalCatalog f5 f205 f14 years) "SR14" year "EB" =
           Except.ok (bucketFiles f14 year "EB") ∧
       get_portal_data (portalCatalog f5 f205 f14 years) "SR14" year "WB" =
           Except.ok (bucketFiles f14 year "WB")) ∧
    (∀ (f5 f205 f14 : List String) (years : List String) (year : String)
       (c direction : String), (c = "I5" ∨ c = "I205" ∨ c = "SR14") →
       year ∉ years →
       get_portal_data (portalCatalog f5 f205 f14 years) c year direction =
         Except.error PyErr.keyError) ∧
    (∀ (f5 f205 f14 : List String) (years : List String)
       (c year direction : String),
       c ≠ "I5" → c ≠ "I205" → c ≠ "SR14" →
       get_portal_data (portalCatalog f5 f205 f14 years) c year direction =
         Except.error PyErr.keyError) ∧
    (∀ name : String, name ≠ "detectors" → name ≠ "highways" →
       name ≠ "stations" →
       get_portal_meta "data/CADES_PORTAL" name = Except.error PyErr.keyError) := by
  refine ⟨setup_portal_ok, mem_bucketFiles, ?_, ?_, ?_, ?_⟩
  · intro f5 f205 f14 years year hy
    refine ⟨?_, ?_, ?_, ?_, ?_, ?_⟩ <;>
      simp only [get_portal_data, portalCatalog, List.lookup, beq_self_eq_true,
        show ("I5" == "I205") = false from rfl,
        show ("I5" == "SR14") = false from rfl,
        show ("I205" == "I5") = false from rfl,
        show ("I205" == "SR14") = false from rfl,
        show ("SR14" == "I5") = false from rfl,
        show ("SR14" == "I205") = false from rfl,
        show ("NB" == "SB") = false from rfl,
        show ("SB" == "NB") = false from rfl,
        show ("EB" == "WB") = false from rfl,
        show ("WB" == "EB") = false from rfl,
        lookup_map_self _ years year hy]
  · intro f5 f205 f14 years year c direction hc hy
    have hnone : ∀ (g : String → List (String × List String)),
        List.lookup year (years.map (fun y => (y, g y))) = none :=
      fun g => lookup_map_self_none g years year hy
    rcases hc with h | h | h <;> subst h <;>
      simp only [get_portal_data, portalCatalog, List.lookup, beq_self_eq_true,
        show ("I5" == "I205") = false from rfl,
        show ("I5" == "SR14") = false from rfl,
        show ("I205" == "I5") = false from rfl,
        show ("I205" == "SR14") = false from rfl,
        show ("SR14" == "I5") = false from rfl,
        show ("SR14" == "I205") = false from rfl,
        hnone]
  · intro f5 f205 f14 years c year direction h1 h2 h3
    simp only [get_portal_data, portalCatalog, List.lookup,
      beq_eq_false_iff_ne.mpr h1, beq_eq_false_iff_ne.mpr h2,
      beq_eq_false_iff_ne.mpr h3]
  · intro name h1 h2 h3
    simp only [get_portal_meta, portal_meta_files, List.lookup,
      beq_eq_false_iff_ne.mpr h1, beq_eq_false_iff_ne.mpr h2,
      beq_eq_false_iff_ne.mpr h3]

/-- C8 (witness): the valid-key arm applied on a concrete fixture tree where
one file matches the (I5, 2023, NB) key and none matches (I5, 2023, SB) — the
latter returning an empty list, not an error. -/
theorem dataFiles_lookup_contract_witness :
    "2023" ∈ ["2023"] ∧
    get_portal_data
        (portalCatalog ["I-5_2023_NB.csv", "I-5_2022_NB.csv"] [] [] ["2023"])
        "I5" "2023" "NB" = Except.ok ["I-5_2023_NB.csv"] ∧
    get_portal_data
        (portalCatalog ["I-5_2023_NB.csv", "I-5_2022_NB.csv"] [] [] ["2023"])
        "I5" "2023" "SB" = Except.ok [] := by
  have h := (dataFiles_lookup_contract.2.2.1
    ["I-5_2023_NB.csv", "I-5_2022_NB.csv"] [] [] ["2023"] "2023"
    (by decide))
  exact ⟨by decide, by rw [h.1]; decide, by rw [h.2.1]; decide⟩

/-! ## Claim C1 — the inner-join merge and the end-to-end fixture -/

/-- Membership in the minutes-to-seconds conversion. -/
theorem mem_convert_stationtt (rows : List PortalRow) (q : PortalRow) :
    q ∈ convert_stationtt rows ↔
      ∃ p ∈ rows, q = { p with stationtt := p.stationtt * 60 } := by
  simp only [convert_stationtt, List.mem_map]
  constructor
  · rintro ⟨p, hp, rfl⟩
    exact ⟨p, hp, rfl⟩
  · rintro ⟨p, hp, rfl⟩
    exact ⟨p, hp, rfl⟩

/-- The probe-side interest set contains an identifier exactly when some
filtered crosswalk row carries it. -/
theorem mem_tmcs_of_interest (metaF : List MetaRow) (tmc : String) :
    (tmcs_of_interest metaF).contains tmc = true ↔
      ∃ m ∈ metaF, m.Tmc = tmc := by
  simp [tmcs_of_interest, mem_uniqueFirst, List.mem_map]

/-- The detector-side interest set contains an identifier exactly when some
filtered crosswalk row carries it. -/
theorem mem_station_ids_of_interest (metaF : List MetaRow) (sid : String) :
    (station_ids_of_interest metaF).contains sid = true ↔
      ∃ m ∈ metaF, m.stationid = sid := by
  simp [station_ids_of_interest, mem_uniqueFirst, List.mem_map]

/-- Membership in the left merge attaching crosswalk stations to probe rows. -/
theorem mem_inrix_enrich (rows : List InrixRow) (meta : List MetaRow)
    (ev : EnrichedRow) :
    ev ∈ inrix_enrich rows meta ↔
      ∃ r ∈ rows,
        (((meta.filter (fun m => m.Tmc == r.tmc_code)).isEmpty = true ∧
            ev = ⟨r, none, none⟩) ∨
          ∃ m ∈ meta, m.Tmc = r.tmc_code ∧
            ev = ⟨r, some m.Tmc, some m.stationid⟩) := by
  simp only [inrix_enrich, List.mem_flatMap]
  refine exists_congr (fun r => and_congr_right (fun _ => ?_))
  by_cases hempty : (meta.filter (fun m => m.Tmc == r.tmc_code)).isEmpty = true
  · rw [if_pos hempty]
    simp only [List.mem_singleton]
    constructor
    · intro h
      exact Or.inl ⟨hempty, h⟩
    · rintro (⟨_, h⟩ | ⟨m, hm, hmt, _⟩)
      · exact h
      · exfalso
        rw [List.isEmpty_iff] at hempty
        have : m ∈ meta.filter (fun m => m.Tmc == r.tmc_code) :=
          List.mem_filter.mpr ⟨hm, by simp [hmt]⟩
        rw [hempty] at this
        cases this
  · rw [if_neg hempty]
    simp only [List.mem_map, List.mem_filter, beq_iff_eq]
    constructor
    · rintro ⟨m, ⟨hm, hmt⟩, rfl⟩
      exact Or.inr ⟨m, hm, hmt, rfl⟩
    · rintro (⟨h, _⟩ | ⟨m, hm, hmt, rfl⟩)
      · exact absurd h hempty
      · exact ⟨m, ⟨hm, hmt⟩, rfl⟩

/-- Membership in the inner merge on (stationid, timestamp). -/
theorem mem_merge_inner (ps : List PortalRow) (es : List EnrichedRow)
    (row : MergedRow) :
    row ∈ merge_inner ps es ↔
      ∃ p ∈ ps, ∃ ev ∈ es, ev.stationid = some p.stationid ∧
        p.starttime = some ev.inrix.measurement_tstamp ∧ row = mkMerged p ev := by
  simp only [merge_inner, List.mem_flatMap, List.mem_map, List.mem_filter,
    Bool.and_eq_true, beq_iff_eq]
  constructor
  · rintro ⟨p, hp, ev, ⟨hev, h1, h2⟩, rfl⟩
    exact ⟨p, hp, ev, hev, h1, h2, rfl⟩
  · rintro ⟨p, hp, ev, hev, h1, h2, rfl⟩
    exact ⟨p, hp, ev, ⟨hev, h1, h2⟩, rfl⟩

/-- The end-to-end fixture crosswalk: one row linking probe segment `"T1"` to
detector station `"S1"` on route `"I-205"`, active from 2023 with an open end
date. -/
def fixture_meta : List MetaRow := [⟨"T1", "S1", "I-205", some 2023, none⟩]

/-- The fixture detector series: one row for station `"S1"` with travel time 5
minutes at the instant 2023-10-01T08:00:00-08:00 (1696176000000000 μs). -/
def fixture_portal : List PortalRow := [⟨"S1", some 1696176000000000, 5⟩]

/-- The fixture probe series: one row for segment `"T1"` with
`travel_time_seconds = 250` at the same instant. -/
def fixture_inrix : List InrixRow := [⟨"T1", 1696176000000000, 250⟩]

/-- C1: a row is in the merged output exactly when the (filtered) detector
series and the (filtered, crosswalk-enriched) probe series each have an
observation carrying the same detector station identifier at exactly equal
timestamps; the detector travel time is multiplied by 60 before joining and
the derived column is detector seconds minus probe seconds.  On the fixture —
detector 5 minutes at 2023-10-01T08:00:00-08 for S1, probe 250 s at the same
instant for T1, crosswalk T1↔S1 active through 2023, window
2023-10-01T00:00:00 to 2023-12-31T23:59:59 Pacific — the output is exactly one
row with detector seconds 300, probe seconds 250, discrepancy 50. -/
theorem merge_pipeline_inner_join :
    (∀ (route : String) (year : Int) (s e : Int) (meta : List MetaRow)
       (portalRaw : List PortalRow) (inrixRaw : List InrixRow) (row : MergedRow),
       row ∈ merge_pipeline route year s e meta portalRaw inrixRaw ↔
         ∃ p ∈ portalRaw, ∃ i ∈ inrixRaw, ∃ m ∈ meta,
           m.Tmc = i.tmc_code ∧ m.stationid = p.stationid ∧
           p.starttime = some i.measurement_tstamp ∧
           s ≤ i.measurement_tstamp ∧ i.measurement_tstamp ≤ e ∧
           (∃ m1 ∈ meta_filter route year meta, m1.stationid = p.stationid) ∧
           (∃ m2 ∈ meta_filter route year meta, m2.Tmc = i.tmc_code) ∧
           row = ⟨p.stationid, some i.tmc_code, some i.measurement_tstamp,
             i.measurement_tstamp, p.stationtt * 60, i.travel_time_seconds,
             p.stationtt * 60 - i.travel_time_seconds⟩) ∧
    merge_pipeline "I205" 2023 1696143600000000 1704095999000000 fixture_meta
        fixture_portal fixture_inrix =
      [⟨"S1", some "T1", some 1696176000000000, 1696176000000000, 300, 250,
        50⟩] := by
  refine ⟨?_, by decide⟩
  intro route year s e meta portalRaw inrixRaw row
  simp only [merge_pipeline]
  rw [mem_merge_inner]
  constructor
  · rintro ⟨p1, hp1, ev, hev, hsid, hst, hrow⟩
    rcases (mem_portal_filter _ _ _ _ _).mp hp1 with ⟨hp1mem, hpid, t, hpt, hts, hte⟩
    rcases (mem_convert_stationtt _ _).mp hp1mem with ⟨p, hp, rfl⟩
    rcases (mem_inrix_enrich _ _ _).mp hev with ⟨i, hiF, hcase⟩
    rcases (mem_inrix_filter _ _ _ _ _).mp hiF with ⟨hi, htmc, his, hie⟩
    rcases hcase with ⟨_, rfl⟩ | ⟨m, hm, hmt, rfl⟩
    · simp at hsid
    · refine ⟨p, hp, i, hi, m, hm, hmt, Option.some_inj.mp hsid, ?_, his, hie,
        (mem_station_ids_of_interest _ _).mp hpid,
        (mem_tmcs_of_interest _ _).mp htmc, ?_⟩
      · simpa using hst
      · have hst2 : p.starttime = some i.measurement_tstamp := by simpa using hst
        rw [hrow]
        simp [mkMerged, hmt, hst2]
  · rintro ⟨p, hp, i, hi, m, hm, hmt, hms, hst, his, hie, ⟨m1, hm1, hm1s⟩,
      ⟨m2, hm2, hm2t⟩, hrow⟩
    refine ⟨{ p with stationtt := p.stationtt * 60 },
      (mem_portal_filter _ _ _ _ _).mpr
        ⟨(mem_convert_stationtt _ _).mpr ⟨p, hp, rfl⟩,
         (mem_station_ids_of_interest _ _).mpr ⟨m1, hm1, hm1s⟩,
         ⟨i.measurement_tstamp, hst, his, hie⟩⟩,
      ⟨i, some m.Tmc, some m.stationid⟩,
      (mem_inrix_enrich _ _ _).mpr
        ⟨i, (mem_inrix_filter _ _ _ _ _).mpr
          ⟨hi, (mem_tmcs_of_interest _ _).mpr ⟨m2, hm2, hm2t⟩, his, hie⟩,
         Or.inr ⟨m, hm, hmt, rfl⟩⟩,
      ?_, hst, ?_⟩
    · simpa using hms
    · rw [hrow]
      simp [mkMerged, hmt, hst]
